import Mathlib

/-!
Shallow embedding of the notify-srv notification service
(`src/models.py`, `src/main.py`) and proofs about it.

Modelling conventions:
* Python `None` becomes `Option.none`; a notification's `forwarded`
  attribute, which holds `None`, `True` or `False`, becomes `Option Bool`.
* Timestamps (`datetime.now(timezone.utc)`) become abstract `Nat` clock
  values passed explicitly to the operations that read the clock.
* The outbound HTTP call in `TeamsForwarder.forward` is external I/O; its
  outcome is passed in as an explicit `TransportResult` oracle.
* The `warning.log` side file becomes a `List String` of appended lines.
* Python object identity (needed for the aliasing claims) is modelled
  separately with a heap of addresses (`Heap`, `RefNotificationStore`).
-/

/-- Embeds the `Notification` class of `src/models.py`: severity type,
name, description, arrival timestamp and tri-state forwarding outcome. -/
structure Notification where
  type : String
  name : String
  description : String
  received_at : Option Nat
  forwarded : Option Bool
deriving DecidableEq, Repr

/-- Embeds the `NotificationStore` class: a bare list of notifications. -/
structure NotificationStore where
  notifications : List Notification
deriving DecidableEq, Repr

/-- `NotificationStore.add`: stamps `received_at` with the current time and
appends; returns the stored notification. The clock read
`datetime.now(timezone.utc)` is the explicit argument `now`. -/
def NotificationStore.add (s : NotificationStore) (notification : Notification)
    (now : Nat) : NotificationStore × Notification :=
  let stamped := { notification with received_at := some now }
  (⟨s.notifications ++ [stamped]⟩, stamped)

/-- `NotificationStore.get_all`: `self._notifications.copy()` — the list of
all stored notifications, in insertion order. -/
def NotificationStore.get_all (s : NotificationStore) : List Notification :=
  s.notifications

/-- `NotificationStore.get_forwarded`: `[n for n in ... if n.forwarded]` —
Python truthiness of `None`/`True`/`False` is `Option.getD · false`. -/
def NotificationStore.get_forwarded (s : NotificationStore) : List Notification :=
  s.notifications.filter (fun n => n.forwarded.getD false)

/-- `NotificationStore.get_ignored`: `[n for n in ... if n.forwarded is False]`. -/
def NotificationStore.get_ignored (s : NotificationStore) : List Notification :=
  s.notifications.filter (fun n => n.forwarded == some false)

/-- `NotificationStore.clear`: empties the list. -/
def NotificationStore.clear (_s : NotificationStore) : NotificationStore :=
  ⟨[]⟩

/-- `NotificationStore.count`: length of the list. -/
def NotificationStore.count (s : NotificationStore) : Nat :=
  s.notifications.length

/-- Python truthiness test `not value` for an optional string field read via
`dict.get(key, None)`: true when the key is absent or the value is `""`. -/
def falsy : Option String → Bool
  | none => true
  | some s => s == ""

/-- Embeds the input mapping as seen by `from_dict` (`src/models.py`),
which reads exactly the keys `Type`, `Name`, `Description`. -/
structure InputDict where
  Type' : Option String
  Name : Option String
  Description : Option String
deriving DecidableEq, Repr

/-- `from_dict` (`src/models.py`): validates the mapping field by field and
either raises `ValueError` (the `Except.error` message) at the first failing
check or builds the `Notification`. -/
def from_dict (data : InputDict) : Except String Notification :=
  let notification_type := data.Type'
  let name := data.Name
  let description := data.Description
  if falsy notification_type then
    Except.error "Missing required field: Type"
  else if notification_type ≠ some "Warning" ∧ notification_type ≠ some "Info" then
    Except.error ("Invalid type: " ++ notification_type.getD "" ++
      ". Must be \x27Warning\x27 or \x27Info\x27")
  else if falsy name then
    Except.error "Missing required field: Name"
  else if falsy description then
    Except.error "Missing required field: Description"
  else
    Except.ok
      { type := notification_type.getD "", name := name.getD "",
        description := description.getD "", received_at := none,
        forwarded := none }

/-- Embeds the `TeamsForwarder` class: its only state is the webhook URL
(its constructor guarantees the URL is non-empty, else it raises). -/
structure TeamsForwarder where
  webhook_url : String
deriving DecidableEq, Repr

/-- Outcome of the outbound HTTP POST in `TeamsForwarder.forward`:
a 2xx response, a non-2xx response (so `raise_for_status` raises), a
transport-level error, or a timeout. -/
inductive TransportResult where
  | success
  | httpError
  | transportError
  | timeout
deriving DecidableEq, Repr

/-- `TeamsForwarder.should_forward`: `notification.type == "Warning"`. -/
def TeamsForwarder.should_forward (_f : TeamsForwarder)
    (notification : Notification) : Bool :=
  notification.type == "Warning"

/-- `TeamsForwarder.forward`: POSTs the message card and returns `True` on
a 2xx acknowledgment; every exception (non-2xx via `raise_for_status`,
transport error, timeout) is caught and yields `False`. The external
outcome is the explicit `transport` oracle; the function is total — no
fault escapes to the caller. -/
def TeamsForwarder.forward (_f : TeamsForwarder) (_notification : Notification)
    (transport : TransportResult) : Bool :=
  match transport with
  | TransportResult.success => true
  | _ => false

/-- The `forwarding` part of the response of `create_notification`
(`src/main.py`): boolean flag plus outcome tag string. -/
structure ForwardingResult where
  forwarded : Bool
  status : String
deriving DecidableEq, Repr

/-- The response body of `create_notification`: `status`, the normalized
notification fields, and the forwarding result. The response field `type`
is `ntype` here because `type` cannot name a Lean field directly. -/
structure CreateResponse where
  status : String
  ntype : String
  name : String
  description : String
  received_at : Option Nat
  forwarding : ForwardingResult
deriving DecidableEq, Repr

/-- The process state touched by the ingestion endpoint: the global
`notification_store` plus the `warning.log` side file (as its lines). -/
structure PipelineState where
  store : NotificationStore
  warning_log : List String
deriving DecidableEq, Repr

/-- Setting `stored_notification.forwarded = b` in `create_notification`:
the stored notification is the object just appended, so in the value model
the annotation rewrites the last element of the store. -/
def annotateLast (s : NotificationStore) (b : Bool) : NotificationStore :=
  match s.notifications.getLast? with
  | none => s
  | some last => ⟨s.notifications.dropLast ++ [{ last with forwarded := some b }]⟩

/-- The line appended to `warning.log`:
`f"{timestamp} | {name} | {description}\n"` with the timestamp rendered from
the stored notification's `received_at`. -/
def warningLogEntry (stored : Notification) : String :=
  toString (stored.received_at.getD 0) ++ " | " ++ stored.name ++ " | " ++
    stored.description ++ "\n"

/-- The `else` branch of `create_notification` (`src/main.py` lines
129-142): not forwarded by design; `forwarded = False`; outcome tag
`skipped_info_type` for Info, otherwise `no_teams_config`; and when the
type is Warning and no forwarder is configured, append an audit line to
`warning.log`. `tfAbsent` is `teams_forwarder is None`. -/
def ingestNotForwarded (tfAbsent : Bool) (st : PipelineState)
    (store1 : NotificationStore) (stored_notification : Notification) :
    PipelineState × Except String CreateResponse :=
  let forwarded := false
  let forward_status :=
    if stored_notification.type == "Info" then "skipped_info_type"
    else "no_teams_config"
  let store2 := annotateLast store1 forwarded
  let log2 :=
    if stored_notification.type == "Warning" && tfAbsent then
      st.warning_log ++ [warningLogEntry stored_notification]
    else st.warning_log
  (⟨store2, log2⟩,
   Except.ok
     { status := "created", ntype := stored_notification.type,
       name := stored_notification.name,
       description := stored_notification.description,
       received_at := stored_notification.received_at,
       forwarding := { forwarded := forwarded, status := forward_status } })

/-- `create_notification` (`src/main.py`): validate via `from_dict`
(a `ValueError` becomes the HTTP 400 error reported to the caller, with
nothing stored), store via `notification_store.add`, then decide:
forwarder configured and `should_forward` → attempt the forward (outcome
from the `transport` oracle) and tag `success`/`failed`; otherwise the
not-forwarded branch. Returns the updated process state together with the
caller-visible result. -/
def create_notification (teams_forwarder : Option TeamsForwarder)
    (transport : TransportResult) (now : Nat) (st : PipelineState)
    (data : InputDict) : PipelineState × Except String CreateResponse :=
  match from_dict data with
  | Except.error e => (st, Except.error e)
  | Except.ok notification =>
    let added := st.store.add notification now
    let store1 := added.1
    let stored_notification := added.2
    match teams_forwarder with
    | some f =>
      if f.should_forward notification then
        let forwarded := f.forward notification transport
        let store2 := annotateLast store1 forwarded
        (⟨store2, st.warning_log⟩,
         Except.ok
           { status := "created", ntype := notification.type,
             name := notification.name,
             description := notification.description,
             received_at := stored_notification.received_at,
             forwarding :=
               { forwarded := forwarded,
                 status := if forwarded then "success" else "failed" } })
      else
        ingestNotForwarded false st store1 stored_notification
    | none =>
      ingestNotForwarded true st store1 stored_notification

/-- `get_statistics` (`src/main.py`): total, forwarded and ignored counts
computed over `get_all()` with the same truthiness tests the store uses. -/
def get_statistics (s : NotificationStore) : Nat × Nat × Nat :=
  let all_notifications := s.get_all
  let forwarded := (all_notifications.filter (fun n => n.forwarded.getD false)).length
  let ignored := (all_notifications.filter (fun n => n.forwarded == some false)).length
  (all_notifications.length, forwarded, ignored)

/-!
Reference model of object identity, for the claims about aliasing.
A Python object is a heap cell named by an address; the store's internal
list `_notifications` holds addresses; `list.copy()` produces a fresh list
holding the same addresses (a shallow copy).
-/

/-- Heap addresses (Python object identities). -/
abbrev Addr := Nat

/-- A heap assigning a `Notification` to every address. -/
def Heap := Addr → Notification

/-- In-place mutation of the object at address `a`. -/
def Heap.update (h : Heap) (a : Addr) (n : Notification) : Heap :=
  fun x => if x = a then n else h x

/-- `NotificationStore` at the reference level: `_notifications` is a list
of object references. -/
structure RefNotificationStore where
  notifications : List Addr
deriving DecidableEq, Repr

/-- `NotificationStore.add` at the reference level: mutates the argument
object in place (`notification.received_at = datetime.now(...)`), appends
its address, and returns the very same address. -/
def RefNotificationStore.add (s : RefNotificationStore) (h : Heap) (a : Addr)
    (now : Nat) : Heap × RefNotificationStore × Addr :=
  let h1 := h.update a { h a with received_at := some now }
  (h1, ⟨s.notifications ++ [a]⟩, a)

/-- `NotificationStore.get_all` at the reference level:
`self._notifications.copy()` — a fresh list holding the same addresses. -/
def RefNotificationStore.get_all (s : RefNotificationStore) : List Addr :=
  s.notifications

/-- The store's observable contents: each held reference dereferenced. -/
def RefNotificationStore.view (s : RefNotificationStore) (h : Heap) :
    List Notification :=
  s.notifications.map h


/-- Calling `add` twice in the reference model, as with the same Python
object passed to `NotificationStore.add` twice. -/
def refAddTwice (h : Heap) (s : RefNotificationStore) (a : Addr)
    (t1 t2 : Nat) : Heap × RefNotificationStore × Addr :=
  let r1 := s.add h a t1
  (r1.2.1).add r1.1 a t2

/-- C4: `forward` returns true iff the remote endpoint acknowledges with a
success status, and false on any transport error, non-success
acknowledgment, or timeout; being a total boolean function, it never
propagates a fault to its caller. -/
theorem forward_true_iff_success (f : TeamsForwarder) (n : Notification)
    (t : TransportResult) :
    (f.forward n t = true ↔ t = TransportResult.success) ∧
    f.forward n TransportResult.httpError = false ∧
    f.forward n TransportResult.transportError = false ∧
    f.forward n TransportResult.timeout = false := by
  refine ⟨?_, rfl, rfl, rfl⟩
  cases t <;> simp [TeamsForwarder.forward]

/-- C5: `should_forward` returns true iff the event's severity is
`Warning`; no other attribute of the event and no state of the forwarder
influences the result. -/
theorem should_forward_iff_warning (f : TeamsForwarder) (n : Notification) :
    (f.should_forward n = true ↔ n.type = "Warning") ∧
    (∀ (g : TeamsForwarder) (m : Notification),
      m.type = n.type → g.should_forward m = f.should_forward n) := by
  constructor
  · simp [TeamsForwarder.should_forward]
  · intro g m hm
    simp [TeamsForwarder.should_forward, hm]

/-- Witness for C5 at concrete inputs: two forwarders and two events that
agree only on severity produce the same decision. -/
theorem should_forward_iff_warning_witness :
    TeamsForwarder.should_forward ⟨"u"⟩ ⟨"Warning", "a", "b", none, none⟩ =
      TeamsForwarder.should_forward ⟨"v"⟩ ⟨"Warning", "c", "d", some 3, some true⟩ :=
  (should_forward_iff_warning ⟨"v"⟩ ⟨"Warning", "c", "d", some 3, some true⟩).2
    ⟨"u"⟩ ⟨"Warning", "a", "b", none, none⟩ rfl

/-- C8: `clear` on an empty store is a no-op; after any `clear`, `count`
is 0 and every view (`get_all`, `get_forwarded`, `get_ignored`) is empty —
in particular `clear` is idempotent. -/
theorem clear_idempotent (s t : NotificationStore)
    (ht : t.notifications = []) :
    t.clear = t ∧ s.clear.clear = s.clear ∧ s.clear.count = 0 ∧
    s.clear.get_all = [] ∧ s.clear.get_forwarded = [] ∧
    s.clear.get_ignored = [] := by
  refine ⟨?_, rfl, rfl, rfl, rfl, rfl⟩
  cases t
  simp_all [NotificationStore.clear]

/-- Witness for C8 at a concrete one-element store and the empty store. -/
theorem clear_idempotent_witness :
    NotificationStore.clear ⟨[]⟩ = (⟨[]⟩ : NotificationStore) ∧
    (NotificationStore.clear ⟨[⟨"Info", "a", "b", some 1, some false⟩]⟩).clear =
      NotificationStore.clear ⟨[⟨"Info", "a", "b", some 1, some false⟩]⟩ ∧
    (NotificationStore.clear ⟨[⟨"Info", "a", "b", some 1, some false⟩]⟩).count = 0 ∧
    (NotificationStore.clear ⟨[⟨"Info", "a", "b", some 1, some false⟩]⟩).get_all = [] ∧
    (NotificationStore.clear ⟨[⟨"Info", "a", "b", some 1, some false⟩]⟩).get_forwarded = [] ∧
    (NotificationStore.clear ⟨[⟨"Info", "a", "b", some 1, some false⟩]⟩).get_ignored = [] :=
  clear_idempotent ⟨[⟨"Info", "a", "b", some 1, some false⟩]⟩ ⟨[]⟩ rfl

/-- C7: an event added via `add` and read back via `get_all` keeps its
severity, name and description; its timestamp is non-null and at least any
time `t` observed before the call; and `get_all` after `add` is the old
sequence with the stored event appended (insertion order preserved). -/
theorem add_roundtrip (s : NotificationStore) (n : Notification)
    (t now : Nat) (h : t ≤ now) :
    (s.add n now).1.get_all = s.get_all ++ [(s.add n now).2] ∧
    (s.add n now).2.type = n.type ∧
    (s.add n now).2.name = n.name ∧
    (s.add n now).2.description = n.description ∧
    (s.add n now).2.received_at ≠ none ∧
    (∃ r, (s.add n now).2.received_at = some r ∧ t ≤ r) := by
  refine ⟨rfl, rfl, rfl, rfl, by simp [NotificationStore.add], now, rfl, h⟩

/-- Witness for C7 at a concrete store, event and clock. -/
theorem add_roundtrip_witness :
    (NotificationStore.add ⟨[]⟩ ⟨"Info", "a", "b", none, none⟩ 7).1.get_all =
      NotificationStore.get_all ⟨[]⟩ ++
        [(NotificationStore.add ⟨[]⟩ ⟨"Info", "a", "b", none, none⟩ 7).2] ∧
    (NotificationStore.add ⟨[]⟩ ⟨"Info", "a", "b", none, none⟩ 7).2.type = "Info" ∧
    (NotificationStore.add ⟨[]⟩ ⟨"Info", "a", "b", none, none⟩ 7).2.name = "a" ∧
    (NotificationStore.add ⟨[]⟩ ⟨"Info", "a", "b", none, none⟩ 7).2.description = "b" ∧
    (NotificationStore.add ⟨[]⟩ ⟨"Info", "a", "b", none, none⟩ 7).2.received_at ≠ none ∧
    (∃ r, (NotificationStore.add ⟨[]⟩ ⟨"Info", "a", "b", none, none⟩ 7).2.received_at
        = some r ∧ 6 ≤ r) :=
  add_roundtrip ⟨[]⟩ ⟨"Info", "a", "b", none, none⟩ 6 7 (by decide)

/-- C10: `add` returns the very reference it was passed; it overwrites
`received_at` with the current clock even when already set; adding the
same object twice leaves two entries in the store that alias one object,
whose timestamp is the one of the second call, so the store's contents
show the same re-stamped notification twice. -/
theorem ref_add_aliasing (h : Heap) (s : RefNotificationStore) (a : Addr)
    (t1 t2 : Nat) :
    (s.add h a t1).2.2 = a ∧
    ((s.add h a t1).1 a).received_at = some t1 ∧
    (refAddTwice h s a t1 t2).2.1.notifications = s.notifications ++ [a, a] ∧
    ((refAddTwice h s a t1 t2).1 a).received_at = some t2 ∧
    RefNotificationStore.view (refAddTwice h s a t1 t2).2.1
        (refAddTwice h s a t1 t2).1 =
      s.notifications.map (refAddTwice h s a t1 t2).1 ++
        [(refAddTwice h s a t1 t2).1 a, (refAddTwice h s a t1 t2).1 a] := by
  refine ⟨rfl, ?_, ?_, ?_, ?_⟩
  · simp [RefNotificationStore.add, Heap.update]
  · simp [refAddTwice, RefNotificationStore.add]
  · simp [refAddTwice, RefNotificationStore.add, Heap.update]
  · simp [refAddTwice, RefNotificationStore.add, RefNotificationStore.view,
      Heap.update]

/-- Two mutually exclusive filters together keep at most every element. -/
theorem length_filter_two_le {α : Type} (p q : α → Bool) (l : List α)
    (hpq : ∀ x, ¬(p x = true ∧ q x = true)) :
    (l.filter p).length + (l.filter q).length ≤ l.length := by
  induction l with
  | nil => simp
  | cons x xs ih =>
    cases hp : p x with
    | true =>
      cases hq : q x with
      | true => exact absurd ⟨hp, hq⟩ (hpq x)
      | false =>
        simp [List.filter, hp, hq]
        omega
    | false =>
      cases hq : q x with
      | true =>
        simp [List.filter, hp, hq]
        omega
      | false =>
        simp [List.filter, hp, hq]
        omega

/-- With an element satisfying neither filter, the bound is strict. -/
theorem length_filter_two_lt {α : Type} (p q : α → Bool) (l : List α)
    (hpq : ∀ y, ¬(p y = true ∧ q y = true)) (x : α) (hx : x ∈ l)
    (hpx : p x = false) (hqx : q x = false) :
    (l.filter p).length + (l.filter q).length < l.length := by
  induction l with
  | nil => cases hx
  | cons z zs ih =>
    rcases List.mem_cons.mp hx with hz | hz
    · subst hz
      simp [List.filter, hpx, hqx]
      have := length_filter_two_le p q zs hpq
      omega
    · have := ih hz
      cases hp : p z with
      | true =>
        cases hq : q z with
        | true => exact absurd ⟨hp, hq⟩ (hpq z)
        | false =>
          simp [List.filter, hp, hq]
          omega
      | false =>
        cases hq : q z with
        | true =>
          simp [List.filter, hp, hq]
          omega
        | false =>
          simp [List.filter, hp, hq]
          omega

/-- C3: an event whose forwarding outcome is still unset appears in
neither `get_forwarded` nor `get_ignored`; `get_forwarded` holds exactly
the events with outcome true and `get_ignored` exactly those with outcome
false; hence the statistics satisfy forwarded + ignored ≤ total, strictly
whenever some stored event is still unset. -/
theorem unset_excluded_from_views (s : NotificationStore) (n : Notification)
    (hn : n.forwarded = none) :
    (n ∉ s.get_forwarded ∧ n ∉ s.get_ignored) ∧
    s.get_forwarded = s.notifications.filter (fun m => m.forwarded == some true) ∧
    s.get_ignored = s.notifications.filter (fun m => m.forwarded == some false) ∧
    (get_statistics s).2.1 + (get_statistics s).2.2 ≤ (get_statistics s).1 ∧
    (n ∈ s.notifications →
      (get_statistics s).2.1 + (get_statistics s).2.2 < (get_statistics s).1) := by
  have hdisj : ∀ m : Notification,
      ¬(m.forwarded.getD false = true ∧ (m.forwarded == some false) = true) := by
    intro m hm
    cases hf : m.forwarded with
    | none => rw [hf] at hm; simp at hm
    | some b => rw [hf] at hm; cases b <;> simp_all
  refine ⟨⟨?_, ?_⟩, ?_, ?_, ?_, ?_⟩
  · intro hmem
    have := List.of_mem_filter hmem
    rw [hn] at this
    simp at this
  · intro hmem
    have := List.of_mem_filter hmem
    rw [hn] at this
    simp at this
  · unfold NotificationStore.get_forwarded
    apply List.filter_congr
    intro m _
    cases hf : m.forwarded with
    | none => simp
    | some b => cases b <;> simp
  · rfl
  · exact length_filter_two_le _ _ s.notifications hdisj
  · intro hmem
    exact length_filter_two_lt _ _ s.notifications hdisj n hmem
      (by rw [hn]; rfl) (by rw [hn]; rfl)

/-- Witness for C3 at a concrete store holding one forwarded, one ignored
and one unset event. -/
theorem unset_excluded_from_views_witness :
    ((⟨"Info", "u", "v", some 1, none⟩ : Notification) ∉
        NotificationStore.get_forwarded
          ⟨[⟨"Warning", "a", "b", some 1, some true⟩,
            ⟨"Info", "c", "d", some 2, some false⟩,
            ⟨"Info", "u", "v", some 1, none⟩]⟩ ∧
      (⟨"Info", "u", "v", some 1, none⟩ : Notification) ∉
        NotificationStore.get_ignored
          ⟨[⟨"Warning", "a", "b", some 1, some true⟩,
            ⟨"Info", "c", "d", some 2, some false⟩,
            ⟨"Info", "u", "v", some 1, none⟩]⟩) ∧
    NotificationStore.get_forwarded
        ⟨[⟨"Warning", "a", "b", some 1, some true⟩,
          ⟨"Info", "c", "d", some 2, some false⟩,
          ⟨"Info", "u", "v", some 1, none⟩]⟩ =
      List.filter (fun m => m.forwarded == some true)
        [⟨"Warning", "a", "b", some 1, some true⟩,
         ⟨"Info", "c", "d", some 2, some false⟩,
         ⟨"Info", "u", "v", some 1, none⟩] ∧
    NotificationStore.get_ignored
        ⟨[⟨"Warning", "a", "b", some 1, some true⟩,
          ⟨"Info", "c", "d", some 2, some false⟩,
          ⟨"Info", "u", "v", some 1, none⟩]⟩ =
      List.filter (fun m => m.forwarded == some false)
        [⟨"Warning", "a", "b", some 1, some true⟩,
         ⟨"Info", "c", "d", some 2, some false⟩,
         ⟨"Info", "u", "v", some 1, none⟩] ∧
    (get_statistics
        ⟨[⟨"Warning", "a", "b", some 1, some true⟩,
          ⟨"Info", "c", "d", some 2, some false⟩,
          ⟨"Info", "u", "v", some 1, none⟩]⟩).2.1 +
      (get_statistics
        ⟨[⟨"Warning", "a", "b", some 1, some true⟩,
          ⟨"Info", "c", "d", some 2, some false⟩,
          ⟨"Info", "u", "v", some 1, none⟩]⟩).2.2 ≤
      (get_statistics
        ⟨[⟨"Warning", "a", "b", some 1, some true⟩,
          ⟨"Info", "c", "d", some 2, some false⟩,
          ⟨"Info", "u", "v", some 1, none⟩]⟩).1 ∧
    ((⟨"Info", "u", "v", some 1, none⟩ : Notification) ∈
        [⟨"Warning", "a", "b", some 1, some true⟩,
         ⟨"Info", "c", "d", some 2, some false⟩,
         (⟨"Info", "u", "v", some 1, none⟩ : Notification)] →
      (get_statistics
          ⟨[⟨"Warning", "a", "b", some 1, some true⟩,
            ⟨"Info", "c", "d", some 2, some false⟩,
            ⟨"Info", "u", "v", some 1, none⟩]⟩).2.1 +
        (get_statistics
          ⟨[⟨"Warning", "a", "b", some 1, some true⟩,
            ⟨"Info", "c", "d", some 2, some false⟩,
            ⟨"Info", "u", "v", some 1, none⟩]⟩).2.2 <
        (get_statistics
          ⟨[⟨"Warning", "a", "b", some 1, some true⟩,
            ⟨"Info", "c", "d", some 2, some false⟩,
            ⟨"Info", "u", "v", some 1, none⟩]⟩).1) :=
  unset_excluded_from_views
    ⟨[⟨"Warning", "a", "b", some 1, some true⟩,
      ⟨"Info", "c", "d", some 2, some false⟩,
      ⟨"Info", "u", "v", some 1, none⟩]⟩
    ⟨"Info", "u", "v", some 1, none⟩ rfl

/-- C6: when validation fails, `create_notification` reports exactly the
validation fault to the caller and changes nothing: the process state (the
store and its count, and the audit log) is returned untouched whatever the
transport oracle says — so nothing is stored and no forward is attempted;
when the severity key is absent the fault names the missing field. -/
theorem validation_failure_frame (fwd : Option TeamsForwarder)
    (tr : TransportResult) (now : Nat) (st : PipelineState)
    (data : InputDict) (e : String)
    (h : from_dict data = Except.error e) :
    create_notification fwd tr now st data = (st, Except.error e) ∧
    (create_notification fwd tr now st data).1.store.count = st.store.count ∧
    (data.Type' = none → e = "Missing required field: Type") := by
  refine ⟨?_, ?_, ?_⟩
  · simp [create_notification, h]
  · simp [create_notification, h]
  · intro hT
    have : from_dict data = Except.error "Missing required field: Type" := by
      simp [from_dict, falsy, hT]
    rw [h] at this
    exact Except.error.inj this

/-- Witness for C6: a concrete mapping missing the severity field is
rejected naming the field, and the concrete state comes back unchanged. -/
theorem validation_failure_frame_witness :
    create_notification (some ⟨"http://x"⟩) TransportResult.success 5
        ⟨⟨[⟨"Info", "a", "b", some 1, some false⟩]⟩, ["old"]⟩
        ⟨none, some "Build", some "ok"⟩ =
      (⟨⟨[⟨"Info", "a", "b", some 1, some false⟩]⟩, ["old"]⟩,
       Except.error "Missing required field: Type") ∧
    (create_notification (some ⟨"http://x"⟩) TransportResult.success 5
        ⟨⟨[⟨"Info", "a", "b", some 1, some false⟩]⟩, ["old"]⟩
        ⟨none, some "Build", some "ok"⟩).1.store.count =
      NotificationStore.count ⟨[⟨"Info", "a", "b", some 1, some false⟩]⟩ ∧
    ((⟨none, some "Build", some "ok"⟩ : InputDict).Type' = none →
      "Missing required field: Type" = "Missing required field: Type") :=
  validation_failure_frame (some ⟨"http://x"⟩) TransportResult.success 5
    ⟨⟨[⟨"Info", "a", "b", some 1, some false⟩]⟩, ["old"]⟩
    ⟨none, some "Build", some "ok"⟩ "Missing required field: Type" rfl

/-- C2 counterexample: a mapping whose severity value is present but empty
is rejected with the missing-field message, not with the invalid-type
message that names the offending value — so the claim's "including the
empty string" fails on the code. -/
theorem from_dict_empty_type_counterexample :
    from_dict ⟨some "", some "x", some "y"⟩ =
      Except.error "Missing required field: Type" ∧
    "Missing required field: Type" ≠
      "Invalid type: . Must be \x27Warning\x27 or \x27Info\x27" := by
  exact ⟨rfl, by decide⟩

/-- C2 (amended): `from_dict` checks severity presence, severity validity,
name presence, description presence in that order and reports only the
first violated rule; a present, non-empty, unrecognized severity value is
reported naming the offending value, while an empty severity value falls
under the presence rule and is reported as a missing field. -/
theorem from_dict_first_violation :
    (∀ data : InputDict, falsy data.Type' = true →
      from_dict data = Except.error "Missing required field: Type") ∧
    (∀ (data : InputDict) (t : String), data.Type' = some t → t ≠ "" →
      t ≠ "Warning" → t ≠ "Info" →
      from_dict data = Except.error
        ("Invalid type: " ++ t ++ ". Must be \x27Warning\x27 or \x27Info\x27")) ∧
    (∀ data : InputDict,
      (data.Type' = some "Warning" ∨ data.Type' = some "Info") →
      falsy data.Name = true →
      from_dict data = Except.error "Missing required field: Name") ∧
    (∀ data : InputDict,
      (data.Type' = some "Warning" ∨ data.Type' = some "Info") →
      falsy data.Name = false → falsy data.Description = true →
      from_dict data = Except.error "Missing required field: Description") ∧
    (∀ data : InputDict,
      (data.Type' = some "Warning" ∨ data.Type' = some "Info") →
      falsy data.Name = false → falsy data.Description = false →
      ∃ nt nm ds, data.Type' = some nt ∧ data.Name = some nm ∧
        data.Description = some ds ∧
        from_dict data = Except.ok ⟨nt, nm, ds, none, none⟩) := by
  have hfw : falsy (some "Warning") = false := rfl
  have hfi : falsy (some "Info") = false := rfl
  refine ⟨?_, ?_, ?_, ?_, ?_⟩
  · intro data hT
    simp [from_dict, hT]
  · intro data t hT ht hW hI
    have hf : falsy (some t) = false := by
      simp [falsy, ht]
    simp [from_dict, hT, hf, hW, hI]
  · intro data hT hN
    rcases hT with hT | hT <;> simp [from_dict, hT, hN, hfw, hfi]
  · intro data hT hN hD
    rcases hT with hT | hT <;> simp [from_dict, hT, hN, hD, hfw, hfi]
  · intro data hT hN hD
    have hnm : ∃ nm, data.Name = some nm ∧ nm ≠ "" := by
      cases hx : data.Name with
      | none => rw [hx] at hN; simp [falsy] at hN
      | some v =>
        rw [hx] at hN
        simp [falsy] at hN
        exact ⟨v, rfl, hN⟩
    have hds : ∃ ds, data.Description = some ds ∧ ds ≠ "" := by
      cases hx : data.Description with
      | none => rw [hx] at hD; simp [falsy] at hD
      | some v =>
        rw [hx] at hD
        simp [falsy] at hD
        exact ⟨v, rfl, hD⟩
    rcases hnm with ⟨nm, hnm, hnm0⟩
    rcases hds with ⟨ds, hds, hds0⟩
    have hfn : falsy (some nm) = false := by simp [falsy, hnm0]
    have hfd : falsy (some ds) = false := by simp [falsy, hds0]
    rcases hT with hT | hT
    · exact ⟨"Warning", nm, ds, hT, hnm, hds, by
        simp [from_dict, hT, hnm, hds, hfn, hfd, hfw]⟩
    · exact ⟨"Info", nm, ds, hT, hnm, hds, by
        simp [from_dict, hT, hnm, hds, hfn, hfd, hfi]⟩

/-- Witness for C2 (amended): even with every later field also invalid,
the first violated rule (severity presence) is the one reported. -/
theorem from_dict_first_violation_witness :
    from_dict ⟨none, none, none⟩ =
      Except.error "Missing required field: Type" :=
  from_dict_first_violation.1 ⟨none, none, none⟩ rfl

/-- C1 counterexample: a valid Warning ingested with no forwarder
configured gets the outcome tag `no_teams_config`, which is not the
claimed `no_forwarder_configured`. -/
theorem warning_no_forwarder_tag_counterexample :
    Except.map (fun r => r.forwarding.status)
        (create_notification none TransportResult.success 5 ⟨⟨[]⟩, []⟩
          ⟨some "Warning", some "DB Error", some "timeout"⟩).2 =
      Except.ok "no_teams_config" ∧
    "no_teams_config" ≠ "no_forwarder_configured" :=
  ⟨rfl, by decide⟩

/-- C1 (amended): a valid Warning processed with no forwarder configured
yields forwarding flag false and outcome tag `no_teams_config`, and an
audit line containing the event's name and description is appended to
`warning.log`; every successful ingestion's outcome tag is one of
`success`, `failed`, `skipped_info_type`, `no_teams_config`. -/
theorem warning_no_forwarder_audited (st : PipelineState)
    (tr : TransportResult) (now : Nat) (name desc : String)
    (hn : name ≠ "") (hd : desc ≠ "") :
    (∃ entry,
      (create_notification none tr now st
          ⟨some "Warning", some name, some desc⟩).1.warning_log =
        st.warning_log ++ [entry] ∧
      ∃ pre mid post, entry = pre ++ name ++ mid ++ desc ++ post) ∧
    (∃ r,
      (create_notification none tr now st
          ⟨some "Warning", some name, some desc⟩).2 = Except.ok r ∧
      r.forwarding.forwarded = false ∧
      r.forwarding.status = "no_teams_config") ∧
    (∀ (fwd : Option TeamsForwarder) (tr2 : TransportResult) (now2 : Nat)
        (st2 : PipelineState) (data : InputDict) (r : CreateResponse),
      (create_notification fwd tr2 now2 st2 data).2 = Except.ok r →
      r.forwarding.status = "success" ∨ r.forwarding.status = "failed" ∨
      r.forwarding.status = "skipped_info_type" ∨
      r.forwarding.status = "no_teams_config") := by
  have hval : from_dict ⟨some "Warning", some name, some desc⟩ =
      Except.ok ⟨"Warning", name, desc, none, none⟩ := by
    have hfw : falsy (some "Warning") = false := rfl
    have hfn : falsy (some name) = false := by simp [falsy, hn]
    have hfd : falsy (some desc) = false := by simp [falsy, hd]
    simp [from_dict, hfw, hfn, hfd]
  refine ⟨?_, ?_, ?_⟩
  · refine ⟨toString now ++ " | " ++ name ++ " | " ++ desc ++ "\n", ?_,
      toString now ++ " | ", " | ", "\n", ?_⟩
    · simp [create_notification, hval, NotificationStore.add,
        ingestNotForwarded, warningLogEntry]
    · simp [String.append_assoc]
  · refine ⟨{ status := "created", ntype := "Warning", name := name,
              description := desc, received_at := some now,
              forwarding := { forwarded := false,
                              status := "no_teams_config" } },
      ?_, rfl, rfl⟩
    simp [create_notification, hval, NotificationStore.add,
      ingestNotForwarded]
  · intro fwd tr2 now2 st2 data r hr
    unfold create_notification at hr
    cases hv : from_dict data with
    | error e =>
      rw [hv] at hr
      exact absurd hr (by simp)
    | ok notification =>
      rw [hv] at hr
      cases fwd with
      | none =>
        simp [ingestNotForwarded] at hr
        subst hr
        simp [NotificationStore.add]
        tauto
      | some f =>
        by_cases hsf : f.should_forward notification = true
        · simp [hsf] at hr
          subst hr
          by_cases hfo : f.forward notification tr2 = true
          · simp [hfo]
          · simp [hfo]
        · simp [hsf, ingestNotForwarded] at hr
          subst hr
          simp [NotificationStore.add]
          tauto

/-- Witness for C1 (amended) at the spec's concrete scenario: Warning
"DB Error"/"timeout", no forwarder configured. -/
theorem warning_no_forwarder_audited_witness :
    (∃ entry,
      (create_notification none TransportResult.success 5 ⟨⟨[]⟩, ["old"]⟩
          ⟨some "Warning", some "DB Error", some "timeout"⟩).1.warning_log =
        ["old"] ++ [entry] ∧
      ∃ pre mid post, entry = pre ++ "DB Error" ++ mid ++ "timeout" ++ post) ∧
    (∃ r,
      (create_notification none TransportResult.success 5 ⟨⟨[]⟩, ["old"]⟩
          ⟨some "Warning", some "DB Error", some "timeout"⟩).2 = Except.ok r ∧
      r.forwarding.forwarded = false ∧
      r.forwarding.status = "no_teams_config") ∧
    (∀ (fwd : Option TeamsForwarder) (tr2 : TransportResult) (now2 : Nat)
        (st2 : PipelineState) (data : InputDict) (r : CreateResponse),
      (create_notification fwd tr2 now2 st2 data).2 = Except.ok r →
      r.forwarding.status = "success" ∨ r.forwarding.status = "failed" ∨
      r.forwarding.status = "skipped_info_type" ∨
      r.forwarding.status = "no_teams_config") :=
  warning_no_forwarder_audited ⟨⟨[]⟩, ["old"]⟩ TransportResult.success 5
    "DB Error" "timeout" (by decide) (by decide)

/-- C9 counterexample: the store holds one event at address 0; `get_all`
hands out that address; mutating the event through the snapshot changes
what the store itself contains — the snapshot is not independent of the
store's internal state. -/
theorem snapshot_mutation_counterexample :
    0 ∈ RefNotificationStore.get_all ⟨[0]⟩ ∧
    RefNotificationStore.view ⟨[0]⟩
        (Heap.update (fun _ => ⟨"Info", "a", "b", some 1, some false⟩) 0
          ⟨"Info", "MUTATED", "b", some 1, some false⟩) ≠
      RefNotificationStore.view ⟨[0]⟩
        (fun _ => ⟨"Info", "a", "b", some 1, some false⟩) := by
  constructor
  · simp [RefNotificationStore.get_all]
  · simp [RefNotificationStore.view, Heap.update]

/-- C9 (amended): `get_all` returns a fresh list holding the store's own
event references (a shallow copy): replacing or reordering elements of the
returned list cannot touch the store, but the events themselves are
shared, so an in-place mutation of an event reached through the snapshot
is visible in the store's contents. -/
theorem get_all_shallow_copy (s : RefNotificationStore) (h : Heap)
    (a : Addr) (m : Notification) (ha : a ∈ s.get_all) :
    s.get_all = s.notifications ∧ m ∈ s.view (h.update a m) := by
  refine ⟨rfl, ?_⟩
  have hmem : a ∈ s.notifications := ha
  simp [RefNotificationStore.view]
  exact ⟨a, hmem, by simp [Heap.update]⟩

/-- Witness for C9 (amended) at a concrete one-event store. -/
theorem get_all_shallow_copy_witness :
    RefNotificationStore.get_all ⟨[0]⟩ =
      (⟨[0]⟩ : RefNotificationStore).notifications ∧
    (⟨"Info", "MUTATED", "b", some 1, some false⟩ : Notification) ∈
      RefNotificationStore.view ⟨[0]⟩
        (Heap.update (fun _ => ⟨"Info", "a", "b", some 1, some false⟩) 0
          ⟨"Info", "MUTATED", "b", some 1, some false⟩) :=
  get_all_shallow_copy ⟨[0]⟩ (fun _ => ⟨"Info", "a", "b", some 1, some false⟩)
    0 ⟨"Info", "MUTATED", "b", some 1, some false⟩ (by simp [RefNotificationStore.get_all])
